import Mathlib

/-
Shallow embedding of `matrix_synapse_saml_touchstone/displayname_picker.py`:
the display-name picker web flow (session resolution, form rendering,
submission handling with bounded username-collision retry, and the uniform
HTML error page), together with theorems checking the module's specification
against this embedding.

Bytes are modelled as `Nat` (one entry per byte, each < 256 for meaningful
inputs); Python `str` values are Lean `String`s.  The session store (a
process-wide dict in the `_sessions` module, which is not among the sources)
is modelled as an association list keyed by the session identifier.
-/

set_option autoImplicit false

namespace Touchstone

/-- Python `bytes.decode("ascii", errors="replace")`: every byte below 0x80
decodes to the corresponding character, every other byte becomes U+FFFD.
Total, as in the source, where `errors="replace"` can never raise. -/
def decodeAsciiReplace (bs : List Nat) : String :=
  String.mk (bs.map (fun b => if b ≤ 0x7F then Char.ofNat b else Char.ofNat 0xFFFD))

/-- Helper for `decodeUtf8Replace`: is the byte a UTF-8 continuation byte. -/
def utf8Cont (b : Nat) : Bool :=
  0x80 ≤ b && b ≤ 0xBF

/-- Python `bytes.decode("utf-8", errors="replace")`: well-formed UTF-8
sequences decode to their scalar value, malformed input is replaced by U+FFFD
(one replacement per maximal invalid subpart).  Total: decoding with
`errors="replace"` can never raise. -/
def decodeUtf8Replace : List Nat → String
  | [] => ""
  | b1 :: rest =>
    if b1 ≤ 0x7F then
      String.singleton (Char.ofNat b1) ++ decodeUtf8Replace rest
    else if 0xC2 ≤ b1 && b1 ≤ 0xDF then
      match rest.get? 0 with
      | none => String.singleton (Char.ofNat 0xFFFD)
      | some b2 =>
        if utf8Cont b2 then
          String.singleton (Char.ofNat ((b1 - 0xC0) * 0x40 + (b2 - 0x80))) ++
            decodeUtf8Replace (rest.drop 1)
        else
          String.singleton (Char.ofNat 0xFFFD) ++ decodeUtf8Replace rest
    else if 0xE0 ≤ b1 && b1 ≤ 0xEF then
      match rest.get? 0 with
      | none => String.singleton (Char.ofNat 0xFFFD)
      | some b2 =>
        if (if b1 = 0xE0 then 0xA0 ≤ b2 && b2 ≤ 0xBF
            else if b1 = 0xED then 0x80 ≤ b2 && b2 ≤ 0x9F
            else utf8Cont b2) then
          match rest.get? 1 with
          | none => String.singleton (Char.ofNat 0xFFFD)
          | some b3 =>
            if utf8Cont b3 then
              String.singleton
                  (Char.ofNat ((b1 - 0xE0) * 0x1000 + (b2 - 0x80) * 0x40 + (b3 - 0x80))) ++
                decodeUtf8Replace (rest.drop 2)
            else
              String.singleton (Char.ofNat 0xFFFD) ++ decodeUtf8Replace (rest.drop 1)
        else
          String.singleton (Char.ofNat 0xFFFD) ++ decodeUtf8Replace rest
    else if 0xF0 ≤ b1 && b1 ≤ 0xF4 then
      match rest.get? 0 with
      | none => String.singleton (Char.ofNat 0xFFFD)
      | some b2 =>
        if (if b1 = 0xF0 then 0x90 ≤ b2 && b2 ≤ 0xBF
            else if b1 = 0xF4 then 0x80 ≤ b2 && b2 ≤ 0x8F
            else utf8Cont b2) then
          match rest.get? 1 with
          | none => String.singleton (Char.ofNat 0xFFFD)
          | some b3 =>
            if utf8Cont b3 then
              match rest.get? 2 with
              | none => String.singleton (Char.ofNat 0xFFFD)
              | some b4 =>
                if utf8Cont b4 then
                  String.singleton
                      (Char.ofNat ((b1 - 0xF0) * 0x40000 + (b2 - 0x80) * 0x1000 +
                        (b3 - 0x80) * 0x40 + (b4 - 0x80))) ++
                    decodeUtf8Replace (rest.drop 3)
                else
                  String.singleton (Char.ofNat 0xFFFD) ++ decodeUtf8Replace (rest.drop 2)
            else
              String.singleton (Char.ofNat 0xFFFD) ++ decodeUtf8Replace (rest.drop 1)
        else
          String.singleton (Char.ofNat 0xFFFD) ++ decodeUtf8Replace rest
    else
      String.singleton (Char.ofNat 0xFFFD) ++ decodeUtf8Replace rest
termination_by bs => bs.length
decreasing_by all_goals (simp [List.length_drop]; try omega)

/-- Python `email.split(sep)[0]` for a one-character separator: the prefix of
the string before the first occurrence of the separator (the whole string when
the separator does not occur).  Used with `sep = the at sign` to derive the
candidate local username from the session's email address. -/
def emailLocalpart (s : String) : String :=
  String.mk (s.data.takeWhile (fun c => c != '@'))

/-- Maximum number of times to try to register if a username is not available
(`MAX_FAILURES` in the source). -/
def MAX_FAILURES : Nat := 9

/-- Modelled from the spec: `SESSION_COOKIE_NAME` is imported from the
`_sessions` module, which is not among the sources.  The spec fixes only that
there is a single session-identifier cookie with a fixed name; its exact value
is irrelevant to every claim, so an arbitrary fixed name is used. -/
def SESSION_COOKIE_NAME : String := "username_mapping_session"

/-- The pending-registration session record (`DisplayNameMappingSession` from
the `_sessions` module; its fields are those the handlers read). -/
structure DisplayNameMappingSession where
  email : String
  displayname : String
  remote_user_id : String
  affiliation : String
  client_redirect_url : String
deriving DecidableEq

/-- The process-wide session store, keyed by session identifier. -/
abbrev Store : Type := List (String × DisplayNameMappingSession)

/-- Modelled from the spec: `get_mapping_session` lives in the `_sessions`
module, which is not among the sources.  The spec describes it as
`lookupSession(sessionId) -> PendingRegistrationSession | not found`, modelled
as lookup in the store keyed by the session identifier. -/
def get_mapping_session (store : Store) (session_id : String) :
    Option DisplayNameMappingSession :=
  List.lookup session_id store

/-- Python `html.escape` on a single character (`quote=True`, the default):
the five special characters become entity references, all others are kept. -/
def htmlEscapeChar (c : Char) : String :=
  if c = '&' then "&amp;"
  else if c = '<' then "&lt;"
  else if c = '>' then "&gt;"
  else if c = '"' then "&quot;"
  else if c = Char.ofNat 0x27 then "&#x27;"
  else String.singleton c

/-- Character-list worker for `htmlEscape`. -/
def htmlEscapeList : List Char → String
  | [] => ""
  | c :: cs => htmlEscapeChar c ++ htmlEscapeList cs

/-- Python `html.escape(s)`: escapes every occurrence of the five special
characters.  The sequential `str.replace` calls in CPython are equivalent to
this character-wise map because the ampersand is replaced first and no later
replacement target occurs in an earlier replacement string. -/
def htmlEscape (s : String) : String :=
  htmlEscapeList s.data

/-- The `HTML_ERROR_TEMPLATE` format string of the source, with the `code` and
`msg` holes filled by `str.format`. -/
def HTML_ERROR_TEMPLATE_format (code msg : String) : String :=
  "<!DOCTYPE html>\n<html lang=en>\n  <head>\n    <meta charset=\"utf-8\">\n    <title>Error " ++
    code ++
    "</title>\n  </head>\n  <body>\n     <p>" ++
    msg ++
    "</p>\n  </body>\n</html>\n"

/-- An HTTP response as written by this module: status code, the two headers
it sets, and the body.  `body` is the Python `str`; the bytes on the wire are
its UTF-8 encoding, whose length is `body.utf8ByteSize`. -/
structure HttpResponse where
  code : Nat
  contentType : String
  contentLength : Nat
  body : String
deriving DecidableEq

/-- `_return_html_error`: appends the fixed contact-support suffix to the
message, HTML-escapes it into the error template, encodes the page as UTF-8,
and responds with the given status code, HTML content type and the byte length
of the encoded body. -/
def _return_html_error (code : Nat) (msg : String) : HttpResponse :=
  let msg2 := msg ++ " Please email matrix@mit.edu for help."
  let body := HTML_ERROR_TEMPLATE_format (toString code) (htmlEscape msg2)
  { code := code
    contentType := "text/html; charset=utf-8"
    contentLength := body.utf8ByteSize
    body := body }

/-- Result of `_get_session`: either an error page was written (and the
request finished), or the decoded session identifier and its record. -/
inductive SessionResult where
  | err (code : Nat) (msg : String)
  | ok (session_id : String) (session : DisplayNameMappingSession)
deriving DecidableEq

/-- `_get_session`: reads the session cookie from the request.  A missing
cookie, or an empty cookie value (both are falsy in `if not session_id:`),
yields HTTP 400 "missing session_id"; a value whose ASCII-decoded identifier
is not in the session store yields HTTP 403 "Unknown session". -/
def _get_session (store : Store) (cookie : Option (List Nat)) : SessionResult :=
  match cookie with
  | none => .err 400 "missing session_id"
  | some bs =>
    if bs = [] then .err 400 "missing session_id"
    else
      let session_id := decodeAsciiReplace bs
      match get_mapping_session store session_id with
      | none => .err 403 "Unknown session"
      | some s => .ok session_id s

/-- Kind of a registration failure, as the spec's taxonomy distinguishes it:
a username-collision (`NameUnavailable`) or any other registration error.
The source never inspects this field — it catches every `SynapseError` alike —
which is exactly what the theorems below examine. -/
inductive ErrKind where
  | nameUnavailable
  | otherKind
deriving DecidableEq

/-- Outcome of one call to the external `register_user` collaborator: success
with the new user id, a `SynapseError` carrying a kind, an HTTP status code
and a message, or any other exception. -/
inductive RegResult where
  | ok (user_id : String)
  | synErr (kind : ErrKind) (code : Nat) (msg : String)
  | otherExc
deriving DecidableEq

/-- One call made to `register_user`: the keyword arguments the handler
passes (`localpart`, `displayname`, `emails`). -/
structure RegCall where
  localpart : String
  displayname : String
  emails : List String
deriving DecidableEq

/-- Result of the recursive registration-attempt loop of
`SubmitResource.async_render_POST`, together with the list of
`register_user` calls it made, in order. -/
inductive AttemptResult where
  | success (user_id : String) (calls : List RegCall)
  | regFailed (code : Nat) (msg : String) (calls : List RegCall)
  | internalError (calls : List RegCall)
deriving DecidableEq

/-- Prepend one more `register_user` call to the call log of a result. -/
def AttemptResult.consCall (c : RegCall) : AttemptResult → AttemptResult
  | .success uid cs => .success uid (c :: cs)
  | .regFailed code msg cs => .regFailed code msg (c :: cs)
  | .internalError cs => .internalError (c :: cs)

/-- The call log of a result. -/
def AttemptResult.calls : AttemptResult → List RegCall
  | .success _ cs => cs
  | .regFailed _ _ cs => cs
  | .internalError cs => cs

/-- The candidate username of the attempt with `num_failures` earlier
failures: the base localpart, suffixed with the decimal failure counter when
it is positive (`if num_failures > 0: localpart = f'{localpart}{num_failures}'`). -/
def mkLocalpart (base : String) (num_failures : Nat) : String :=
  if 0 < num_failures then base ++ toString num_failures else base

/-- The registration-attempt loop of `SubmitResource.async_render_POST`: call
`register_user` with the candidate username; on a `SynapseError`, recurse with
`num_failures + 1` while `num_failures < MAX_FAILURES`, otherwise surface the
error's code and message; any other exception escapes to
`_wrap_for_html_exceptions`.  `reg n` is the collaborator's answer to the call
made with `num_failures = n`. -/
def submitAttempts (email base displayname : String) (reg : Nat → RegResult)
    (num_failures : Nat) : AttemptResult :=
  let call : RegCall := ⟨mkLocalpart base num_failures, displayname, [email]⟩
  match reg num_failures with
  | .ok uid => .success uid [call]
  | .synErr _kind c m =>
    if _h : num_failures < MAX_FAILURES then
      (submitAttempts email base displayname reg (num_failures + 1)).consCall call
    else
      .regFailed c m [call]
  | .otherExc => .internalError [call]
termination_by MAX_FAILURES - num_failures
decreasing_by omega

/-- A `request.addCookie` call: cookie name, value, expiry and path. -/
structure CookieSet where
  name : String
  value : String
  expires : String
  path : String
deriving DecidableEq

/-- A `record_user_external_id` call: auth-provider namespace, external id,
and the local user id it is mapped to. -/
structure ExternalIdRecord where
  auth_provider : String
  external_id : String
  user_id : String
deriving DecidableEq

/-- Everything observable about one run of
`SubmitResource.async_render_POST`: the `register_user` calls made, the
external-id records written, the session ids deleted from the store, the
cookies set on the response, the `complete_sso_login_async` invocations
(user id and client redirect URL), the HTML page this module wrote (`none`
when the response is delegated to SSO completion), and the session store
after the run. -/
structure SubmitOutcome where
  regCalls : List RegCall
  externalIds : List ExternalIdRecord
  deletedSessions : List String
  cookiesSet : List CookieSet
  ssoCompletions : List (String × String)
  response : Option HttpResponse
  store_after : Store
deriving DecidableEq

/-- `SubmitResource.async_render_POST`.  `displayname_arg` is the first value
of the `displayname` form field (`none` when the field is absent); `reg` is
the external registration collaborator; `uuid` is the token produced by
`uuid4()`.  When `_get_session` fails it has already written the error page
and finished the request; the caller's tuple unpacking of `None` then raises,
and the wrapper's attempt to write a 500 page fails on the finished request,
so the session error page stays the sole response and nothing else happens. -/
def async_render_POST (store : Store) (cookie : Option (List Nat))
    (displayname_arg : Option (List Nat)) (reg : Nat → RegResult)
    (uuid : String) : SubmitOutcome :=
  match _get_session store cookie with
  | .err c m =>
    { regCalls := [], externalIds := [], deletedSessions := [], cookiesSet := []
      ssoCompletions := [], response := some (_return_html_error c m)
      store_after := store }
  | .ok session_id s =>
    match displayname_arg with
    | none =>
      { regCalls := [], externalIds := [], deletedSessions := [], cookiesSet := []
        ssoCompletions := [], response := some (_return_html_error 400 "missing display name")
        store_after := store }
    | some bs =>
      match submitAttempts s.email (emailLocalpart s.email) (decodeUtf8Replace bs) reg 0 with
      | .regFailed c m calls =>
        { regCalls := calls, externalIds := [], deletedSessions := [], cookiesSet := []
          ssoCompletions := [], response := some (_return_html_error c m)
          store_after := store }
      | .internalError calls =>
        { regCalls := calls, externalIds := [], deletedSessions := [], cookiesSet := []
          ssoCompletions := [], response := some (_return_html_error 500 "Internal server error")
          store_after := store }
      | .success registered_user_id calls =>
        { regCalls := calls
          externalIds :=
            [⟨"saml", s.remote_user_id, registered_user_id⟩,
             ⟨"affiliation", s.affiliation ++ "|" ++ uuid, registered_user_id⟩]
          deletedSessions := [session_id]
          cookiesSet := [⟨SESSION_COOKIE_NAME, "", "Thu, 01 Jan 1970 00:00:00 GMT", "/"⟩]
          ssoCompletions := [(registered_user_id, s.client_redirect_url)]
          response := none
          store_after := (store : List (String × DisplayNameMappingSession)).filter
            (fun p => p.1 != session_id) }

/-- Modelled from the spec: the `index.html` template file lives in the `res`
directory, which is not among the sources.  The spec describes it as a fixed
template with a `kerb` and a `displayname` placeholder substituted by simple
string interpolation, modelled as the fixed text around single occurrences of
the two placeholders. -/
structure FormTemplate where
  pre : String
  mid : String
  post : String
deriving DecidableEq

/-- The `self.html.format(kerb=..., displayname=...)` substitution on the
modelled template. -/
def renderIndexHtml (t : FormTemplate) (kerb displayname : String) : String :=
  t.pre ++ kerb ++ t.mid ++ displayname ++ t.post

/-- `FormResource.async_render_GET`: resolve the session (an error page from
`_get_session` short-circuits as in `async_render_POST`), derive the kerb from
the email, substitute the template, and respond 200.  The source computes the
`Content-Length` header from `len(body)` on the Python `str` — the character
count — before encoding the body to UTF-8. -/
def async_render_GET (store : Store) (t : FormTemplate)
    (cookie : Option (List Nat)) : HttpResponse :=
  match _get_session store cookie with
  | .err c m => _return_html_error c m
  | .ok _session_id s =>
    let kerb := emailLocalpart s.email
    let body := renderIndexHtml t kerb s.displayname
    { code := 200
      contentType := "text/html; charset=utf-8"
      contentLength := body.length
      body := body }

/-- `AsyncResource.render`: dispatch on the request method.  `has` tells which
`async_render_X` attributes the concrete resource defines.  A `HEAD` request
with no `HEAD` handler falls back to the `GET` handler; with no handler at all
the request falls through to `twisted.web.resource.Resource.render` (`none`). -/
def AsyncResource_render (has : String → Bool) (method : String) : Option String :=
  let name := "async_render_" ++ method
  if has name then some name
  else if (method == "HEAD") && has "async_render_GET" then some "async_render_GET"
  else none

/-- The `async_render_X` attributes `FormResource` defines: only
`async_render_GET`. -/
def formResourceHas (name : String) : Bool :=
  name == "async_render_GET"

/-- A request to `FormResource` with the given method: dispatch through
`AsyncResource.render`, then run the resolved handler.  `none` means the
request fell through to the default `Resource.render`. -/
def formResourceRender (store : Store) (t : FormTemplate)
    (cookie : Option (List Nat)) (method : String) : Option HttpResponse :=
  match AsyncResource_render formResourceHas method with
  | some name =>
    if name = "async_render_GET" then some (async_render_GET store t cookie) else none
  | none => none

/-- Unfolding lemma: a successful `register_user` call ends the loop. -/
theorem submitAttempts_ok_eq (email base displayname : String) (reg : Nat → RegResult)
    (n : Nat) (uid : String) (hr : reg n = .ok uid) :
    submitAttempts email base displayname reg n =
      .success uid [⟨mkLocalpart base n, displayname, [email]⟩] := by
  rw [submitAttempts.eq_def, hr]

/-- Unfolding lemma: a `SynapseError` below the retry bound recurses, logging
the call it just made. -/
theorem submitAttempts_synErr_retry (email base displayname : String)
    (reg : Nat → RegResult) (n : Nat) (k : ErrKind) (c : Nat) (m : String)
    (hr : reg n = .synErr k c m) (hn : n < MAX_FAILURES) :
    submitAttempts email base displayname reg n =
      (submitAttempts email base displayname reg (n + 1)).consCall
        ⟨mkLocalpart base n, displayname, [email]⟩ := by
  rw [submitAttempts.eq_def, hr]
  simp [hn]

/-- Unfolding lemma: a `SynapseError` at the retry bound surfaces its code
and message. -/
theorem submitAttempts_synErr_stop (email base displayname : String)
    (reg : Nat → RegResult) (n : Nat) (k : ErrKind) (c : Nat) (m : String)
    (hr : reg n = .synErr k c m) (hn : ¬ n < MAX_FAILURES) :
    submitAttempts email base displayname reg n =
      .regFailed c m [⟨mkLocalpart base n, displayname, [email]⟩] := by
  rw [submitAttempts.eq_def, hr]
  simp [hn]

/-- Unfolding lemma: any other exception from `register_user` escapes the
`except SynapseError` clause at once. -/
theorem submitAttempts_otherExc_eq (email base displayname : String)
    (reg : Nat → RegResult) (n : Nat) (hr : reg n = .otherExc) :
    submitAttempts email base displayname reg n =
      .internalError [⟨mkLocalpart base n, displayname, [email]⟩] := by
  rw [submitAttempts.eq_def, hr]

theorem consCall_calls (c : RegCall) (r : AttemptResult) :
    (r.consCall c).calls = c :: r.calls := by
  cases r <;> rfl

/-- The loop always makes at least the call it was entered with. -/
theorem submitAttempts_calls_ne_nil (email base displayname : String)
    (reg : Nat → RegResult) (n : Nat) :
    (submitAttempts email base displayname reg n).calls ≠ [] := by
  rcases hr : reg n with uid | ⟨k, c, m⟩ | _
  · rw [submitAttempts_ok_eq email base displayname reg n uid hr]
    simp [AttemptResult.calls]
  · by_cases hn : n < MAX_FAILURES
    · rw [submitAttempts_synErr_retry email base displayname reg n k c m hr hn,
        consCall_calls]
      simp
    · rw [submitAttempts_synErr_stop email base displayname reg n k c m hr hn]
      simp [AttemptResult.calls]
  · rw [submitAttempts_otherExc_eq email base displayname reg n hr]
    simp [AttemptResult.calls]

/-- Every call the loop makes reuses the same display name and the same
one-element email list; only the localpart varies. -/
theorem submitAttempts_calls_shape (email base displayname : String)
    (reg : Nat → RegResult) :
    ∀ fuel n, MAX_FAILURES - n ≤ fuel →
      ∀ c ∈ (submitAttempts email base displayname reg n).calls,
        c.displayname = displayname ∧ c.emails = [email] ∧
          ∃ j, n ≤ j ∧ c.localpart = mkLocalpart base j := by
  intro fuel
  induction fuel with
  | zero =>
    intro n hfuel c hc
    have hn : ¬ n < MAX_FAILURES := by omega
    rcases hr : reg n with uid | ⟨k, cd, m⟩ | _
    · rw [submitAttempts_ok_eq email base displayname reg n uid hr] at hc
      simp [AttemptResult.calls] at hc
      subst hc
      exact ⟨rfl, rfl, n, le_refl n, rfl⟩
    · rw [submitAttempts_synErr_stop email base displayname reg n k cd m hr hn] at hc
      simp [AttemptResult.calls] at hc
      subst hc
      exact ⟨rfl, rfl, n, le_refl n, rfl⟩
    · rw [submitAttempts_otherExc_eq email base displayname reg n hr] at hc
      simp [AttemptResult.calls] at hc
      subst hc
      exact ⟨rfl, rfl, n, le_refl n, rfl⟩
  | succ fuel ih =>
    intro n hfuel c hc
    rcases hr : reg n with uid | ⟨k, cd, m⟩ | _
    · rw [submitAttempts_ok_eq email base displayname reg n uid hr] at hc
      simp [AttemptResult.calls] at hc
      subst hc
      exact ⟨rfl, rfl, n, le_refl n, rfl⟩
    · by_cases hn : n < MAX_FAILURES
      · rw [submitAttempts_synErr_retry email base displayname reg n k cd m hr hn,
          consCall_calls] at hc
        rcases List.mem_cons.mp hc with hceq | hc
        · subst hceq
          exact ⟨rfl, rfl, n, le_refl n, rfl⟩
        · obtain ⟨h1, h2, j, hj, h3⟩ := ih (n + 1) (by omega) c hc
          exact ⟨h1, h2, j, by omega, h3⟩
      · rw [submitAttempts_synErr_stop email base displayname reg n k cd m hr hn] at hc
        simp [AttemptResult.calls] at hc
        subst hc
        exact ⟨rfl, rfl, n, le_refl n, rfl⟩
    · rw [submitAttempts_otherExc_eq email base displayname reg n hr] at hc
      simp [AttemptResult.calls] at hc
      subst hc
      exact ⟨rfl, rfl, n, le_refl n, rfl⟩

/-- When the collaborator answers the first `d` calls after `j` with
`SynapseError`s and the next call with success, the loop started at `j`
succeeds with that user id (provided it does not run out of retries first). -/
theorem submitAttempts_reaches_success (email base displayname : String)
    (reg : Nat → RegResult) (uid : String) :
    ∀ d j, j + d ≤ MAX_FAILURES →
      (∀ n, j ≤ n → n < j + d → ∃ k c m, reg n = .synErr k c m) →
      reg (j + d) = .ok uid →
      ∃ cs, submitAttempts email base displayname reg j = .success uid cs := by
  intro d
  induction d with
  | zero =>
    intro j _ _ hok
    exact ⟨_, submitAttempts_ok_eq email base displayname reg j uid hok⟩
  | succ d ih =>
    intro j hle hfail hok
    obtain ⟨k, c, m, hr⟩ := hfail j (le_refl j) (by omega)
    have hn : j < MAX_FAILURES := by omega
    obtain ⟨cs, hcs⟩ := ih (j + 1) (by omega)
      (fun n hn1 hn2 => hfail n (by omega) (by omega))
      (by rw [show j + 1 + d = j + (d + 1) by omega]; exact hok)
    refine ⟨⟨mkLocalpart base j, displayname, [email]⟩ :: cs, ?_⟩
    rw [submitAttempts_synErr_retry email base displayname reg j k c m hr hn, hcs]
    rfl

/-- Unfolding lemma: a session-resolution failure leaves only its error page. -/
theorem async_render_POST_sessionErr (store : Store) (cookie : Option (List Nat))
    (dn : Option (List Nat)) (reg : Nat → RegResult) (uuid : String)
    (c : Nat) (m : String) (h : _get_session store cookie = .err c m) :
    async_render_POST store cookie dn reg uuid =
      { regCalls := [], externalIds := [], deletedSessions := [], cookiesSet := []
        ssoCompletions := [], response := some (_return_html_error c m)
        store_after := store } := by
  simp only [async_render_POST, h]

/-- Unfolding lemma: with a resolved session but no `displayname` field the
handler writes the 400 page and stops. -/
theorem async_render_POST_noDn (store : Store) (cookie : Option (List Nat))
    (reg : Nat → RegResult) (uuid : String) (sid : String)
    (s : DisplayNameMappingSession) (h : _get_session store cookie = .ok sid s) :
    async_render_POST store cookie none reg uuid =
      { regCalls := [], externalIds := [], deletedSessions := [], cookiesSet := []
        ssoCompletions := [], response := some (_return_html_error 400 "missing display name")
        store_after := store } := by
  simp only [async_render_POST, h]

/-- Unfolding lemma: the loop ran out of retries; its last error is surfaced. -/
theorem async_render_POST_regFailed (store : Store) (cookie : Option (List Nat))
    (bs : List Nat) (reg : Nat → RegResult) (uuid : String) (sid : String)
    (s : DisplayNameMappingSession) (c : Nat) (m : String) (calls : List RegCall)
    (h : _get_session store cookie = .ok sid s)
    (hsub : submitAttempts s.email (emailLocalpart s.email) (decodeUtf8Replace bs) reg 0 =
      .regFailed c m calls) :
    async_render_POST store cookie (some bs) reg uuid =
      { regCalls := calls, externalIds := [], deletedSessions := [], cookiesSet := []
        ssoCompletions := [], response := some (_return_html_error c m)
        store_after := store } := by
  simp only [async_render_POST, h, hsub]

/-- Unfolding lemma: a non-`SynapseError` exception reaches
`_wrap_for_html_exceptions`, which writes the generic 500 page. -/
theorem async_render_POST_internalError (store : Store) (cookie : Option (List Nat))
    (bs : List Nat) (reg : Nat → RegResult) (uuid : String) (sid : String)
    (s : DisplayNameMappingSession) (calls : List RegCall)
    (h : _get_session store cookie = .ok sid s)
    (hsub : submitAttempts s.email (emailLocalpart s.email) (decodeUtf8Replace bs) reg 0 =
      .internalError calls) :
    async_render_POST store cookie (some bs) reg uuid =
      { regCalls := calls, externalIds := [], deletedSessions := [], cookiesSet := []
        ssoCompletions := [], response := some (_return_html_error 500 "Internal server error")
        store_after := store } := by
  simp only [async_render_POST, h, hsub]

/-- Unfolding lemma: the success path records the two external ids, deletes
the session, clears the cookie and delegates to SSO completion. -/
theorem async_render_POST_success (store : Store) (cookie : Option (List Nat))
    (bs : List Nat) (reg : Nat → RegResult) (uuid : String) (sid : String)
    (s : DisplayNameMappingSession) (uid : String) (calls : List RegCall)
    (h : _get_session store cookie = .ok sid s)
    (hsub : submitAttempts s.email (emailLocalpart s.email) (decodeUtf8Replace bs) reg 0 =
      .success uid calls) :
    async_render_POST store cookie (some bs) reg uuid =
      { regCalls := calls
        externalIds :=
          [⟨"saml", s.remote_user_id, uid⟩,
           ⟨"affiliation", s.affiliation ++ "|" ++ uuid, uid⟩]
        deletedSessions := [sid]
        cookiesSet := [⟨SESSION_COOKIE_NAME, "", "Thu, 01 Jan 1970 00:00:00 GMT", "/"⟩]
        ssoCompletions := [(uid, s.client_redirect_url)]
        response := none
        store_after := (store : List (String × DisplayNameMappingSession)).filter
          (fun p => p.1 != sid) } := by
  simp only [async_render_POST, h, hsub]

/-- Unfolding lemma: form rendering forwards a session-resolution error page. -/
theorem async_render_GET_err (store : Store) (t : FormTemplate)
    (cookie : Option (List Nat)) (c : Nat) (m : String)
    (h : _get_session store cookie = .err c m) :
    async_render_GET store t cookie = _return_html_error c m := by
  simp only [async_render_GET, h]

/-- Unfolding lemma: form rendering on a resolved session. -/
theorem async_render_GET_ok (store : Store) (t : FormTemplate)
    (cookie : Option (List Nat)) (sid : String) (s : DisplayNameMappingSession)
    (h : _get_session store cookie = .ok sid s) :
    async_render_GET store t cookie =
      { code := 200
        contentType := "text/html; charset=utf-8"
        contentLength := (renderIndexHtml t (emailLocalpart s.email) s.displayname).length
        body := renderIndexHtml t (emailLocalpart s.email) s.displayname } := by
  simp only [async_render_GET, h]

/-- No escaped character expands to text containing an angle bracket. -/
theorem htmlEscapeChar_no_angle (c : Char) :
    ∀ x ∈ (htmlEscapeChar c).data, x ≠ '<' ∧ x ≠ '>' := by
  intro x hx
  unfold htmlEscapeChar at hx
  split_ifs at hx with h1 h2 h3 h4 h5
  · exact (show ∀ y ∈ ("&amp;").data, y ≠ '<' ∧ y ≠ '>' by decide) x hx
  · exact (show ∀ y ∈ ("&lt;").data, y ≠ '<' ∧ y ≠ '>' by decide) x hx
  · exact (show ∀ y ∈ ("&gt;").data, y ≠ '<' ∧ y ≠ '>' by decide) x hx
  · exact (show ∀ y ∈ ("&quot;").data, y ≠ '<' ∧ y ≠ '>' by decide) x hx
  · exact (show ∀ y ∈ ("&#x27;").data, y ≠ '<' ∧ y ≠ '>' by decide) x hx
  · have hxc : x = c := List.mem_singleton.mp hx
    subst hxc
    exact ⟨h2, h3⟩

/-- No character of an escaped string is an angle bracket: whatever the
message, it can never inject markup into the error page. -/
theorem htmlEscape_no_angle (s : String) :
    ∀ x ∈ (htmlEscape s).data, x ≠ '<' ∧ x ≠ '>' := by
  unfold htmlEscape
  induction s.data with
  | nil => intro x hx; cases hx
  | cons c cs ih =>
    intro x hx
    rw [htmlEscapeList, String.data_append] at hx
    rcases List.mem_append.mp hx with hx | hx
    · exact htmlEscapeChar_no_angle c x hx
    · exact ih x hx

theorem htmlEscapeList_append (l1 l2 : List Char) :
    htmlEscapeList (l1 ++ l2) = htmlEscapeList l1 ++ htmlEscapeList l2 := by
  induction l1 with
  | nil =>
    simp [htmlEscapeList]
  | cons c cs ih =>
    simp only [List.cons_append, htmlEscapeList, List.append_eq, ih, String.append_assoc]

/-- Escaping distributes over concatenation. -/
theorem htmlEscape_append (a b : String) :
    htmlEscape (a ++ b) = htmlEscape a ++ htmlEscape b := by
  unfold htmlEscape
  rw [String.data_append, htmlEscapeList_append]

/-- The fixed contact-support suffix contains none of the five escaped
characters, so escaping leaves it unchanged. -/
theorem htmlEscape_suffix :
    htmlEscape " Please email matrix@mit.edu for help." =
      " Please email matrix@mit.edu for help." := by
  decide

/-- Whatever the attempt loop returns, the handler's `register_user` call log
is the loop's call log. -/
theorem async_render_POST_regCalls (store : Store) (cookie : Option (List Nat))
    (bs : List Nat) (reg : Nat → RegResult) (uuid : String) (sid : String)
    (s : DisplayNameMappingSession) (h : _get_session store cookie = .ok sid s) :
    (async_render_POST store cookie (some bs) reg uuid).regCalls =
      (submitAttempts s.email (emailLocalpart s.email) (decodeUtf8Replace bs) reg 0).calls := by
  rcases hsub : submitAttempts s.email (emailLocalpart s.email) (decodeUtf8Replace bs) reg 0
    with ⟨uid, calls⟩ | ⟨c, m, calls⟩ | ⟨calls⟩
  · rw [async_render_POST_success store cookie bs reg uuid sid s uid calls h hsub]; rfl
  · rw [async_render_POST_regFailed store cookie bs reg uuid sid s c m calls h hsub]; rfl
  · rw [async_render_POST_internalError store cookie bs reg uuid sid s calls h hsub]; rfl

/-- Fixture: a pending session as the identity-provider callback would leave
it. -/
def sessionA : DisplayNameMappingSession :=
  { email := "alice@example.com"
    displayname := "Alice"
    remote_user_id := "alice@idp.example"
    affiliation := "student"
    client_redirect_url := "https://client.example/cb" }

/-- Fixture: a store holding `sessionA` under the identifier "sid123". -/
def storeA : Store := [("sid123", sessionA)]

/-- Fixture: the ASCII bytes of "sid123". -/
def cookieA : List Nat := [115, 105, 100, 49, 50, 51]

/-- Fixture: the ASCII bytes of "zzz", an identifier not in `storeA`. -/
def cookieZ : List Nat := [122, 122, 122]

/-- Fixture: the UTF-8 bytes of "Alice", a submitted display name. -/
def dnAlice : List Nat := [65, 108, 105, 99, 101]

/-- Fixture: an arbitrary form template around the two placeholders. -/
def tmplA : FormTemplate :=
  { pre := "<html><body>", mid := " ", post := "</body></html>" }

/-- Fixture: a collaborator that rejects every username as unavailable. -/
def regReject : Nat → RegResult :=
  fun _ => .synErr .nameUnavailable 400 "User ID already taken"

/-- Fixture: a collaborator whose first answer is a `SynapseError` that is not
a username collision, and that accepts the second attempt. -/
def regRateLimited : Nat → RegResult :=
  fun n => if n = 0 then .synErr .otherKind 429 "Too Many Requests"
    else .ok "@alice1:example.com"

/-- Fixture: a collaborator that raises a non-`SynapseError` exception. -/
def regBoom : Nat → RegResult := fun _ => .otherExc

/-- C2 (amended): session resolution fails with HTTP 400 "missing session_id"
when the session cookie is absent or present with an empty value, and with
HTTP 403 "Unknown session" when its nonempty value decodes to an identifier
not in the session store; in each case both handlers respond with that error
page alone and perform nothing further (no registration call, no external-id
record, no store change, no cookie change, no SSO completion). -/
theorem session_resolution_failure_modes (store : Store) (t : FormTemplate)
    (dn : Option (List Nat)) (reg : Nat → RegResult) (uuid : String)
    (bs : List Nat) :
    (async_render_GET store t none = _return_html_error 400 "missing session_id") ∧
    (async_render_GET store t (some []) = _return_html_error 400 "missing session_id") ∧
    (bs ≠ [] → get_mapping_session store (decodeAsciiReplace bs) = none →
      async_render_GET store t (some bs) = _return_html_error 403 "Unknown session") ∧
    (async_render_POST store none dn reg uuid =
      { regCalls := [], externalIds := [], deletedSessions := [], cookiesSet := []
        ssoCompletions := [], response := some (_return_html_error 400 "missing session_id")
        store_after := store }) ∧
    (async_render_POST store (some []) dn reg uuid =
      { regCalls := [], externalIds := [], deletedSessions := [], cookiesSet := []
        ssoCompletions := [], response := some (_return_html_error 400 "missing session_id")
        store_after := store }) ∧
    (bs ≠ [] → get_mapping_session store (decodeAsciiReplace bs) = none →
      async_render_POST store (some bs) dn reg uuid =
        { regCalls := [], externalIds := [], deletedSessions := [], cookiesSet := []
          ssoCompletions := [], response := some (_return_html_error 403 "Unknown session")
          store_after := store }) := by
  have hnone : _get_session store none = .err 400 "missing session_id" := rfl
  have hempty : _get_session store (some []) = .err 400 "missing session_id" := rfl
  refine ⟨?_, ?_, ?_, ?_, ?_, ?_⟩
  · exact async_render_GET_err store t none 400 "missing session_id" hnone
  · exact async_render_GET_err store t (some []) 400 "missing session_id" hempty
  · intro hbs hlk
    have hsess : _get_session store (some bs) = .err 403 "Unknown session" := by
      simp [_get_session, hbs, hlk]
    exact async_render_GET_err store t (some bs) 403 "Unknown session" hsess
  · exact async_render_POST_sessionErr store none dn reg uuid 400 "missing session_id" hnone
  · exact async_render_POST_sessionErr store (some []) dn reg uuid 400 "missing session_id" hempty
  · intro hbs hlk
    have hsess : _get_session store (some bs) = .err 403 "Unknown session" := by
      simp [_get_session, hbs, hlk]
    exact async_render_POST_sessionErr store (some bs) dn reg uuid 403 "Unknown session" hsess

/-- Witness for `session_resolution_failure_modes` at concrete inputs. -/
theorem session_resolution_failure_modes_witness :
    (cookieZ ≠ []) ∧
    (get_mapping_session storeA (decodeAsciiReplace cookieZ) = none) ∧
    (async_render_GET storeA tmplA (some cookieZ) =
      _return_html_error 403 "Unknown session") ∧
    (async_render_GET storeA tmplA none = _return_html_error 400 "missing session_id") :=
  ⟨by decide, rfl,
   (session_resolution_failure_modes storeA tmplA none regReject "tok" cookieZ).2.2.1
     (by decide) rfl,
   (session_resolution_failure_modes storeA tmplA none regReject "tok" cookieZ).1⟩

/-- Counterexample to C2 as stated: a request carrying the session cookie with
an empty value.  Its cookie value decodes to the identifier "", which is not
in the session store, yet the handler answers HTTP 400 "missing session_id"
(the falsy-cookie branch), not HTTP 403 "Unknown session". -/
theorem empty_cookie_counterexample :
    (get_mapping_session storeA (decodeAsciiReplace []) = none) ∧
    (async_render_GET storeA tmplA (some []) =
      _return_html_error 400 "missing session_id") ∧
    ((_return_html_error 400 "missing session_id").code = 400 ∧ (400 : Nat) ≠ 403) :=
  ⟨rfl, rfl, rfl, by decide⟩

/-- C6 (amended): on a submission whose session resolves but whose form body
lacks the `displayname` field, the response is the HTTP 400 page with message
"missing display name" and nothing else happens — in particular no call to
the registration collaborator. -/
theorem missing_displayname_rejected (store : Store) (cookie : Option (List Nat))
    (reg : Nat → RegResult) (uuid : String) (sid : String)
    (s : DisplayNameMappingSession) (h : _get_session store cookie = .ok sid s) :
    (async_render_POST store cookie none reg uuid).response =
      some (_return_html_error 400 "missing display name") ∧
    (async_render_POST store cookie none reg uuid).regCalls = [] ∧
    (async_render_POST store cookie none reg uuid).store_after = store ∧
    (_return_html_error 400 "missing display name").code = 400 := by
  rw [async_render_POST_noDn store cookie reg uuid sid s h]
  exact ⟨rfl, rfl, rfl, rfl⟩

/-- Witness for `missing_displayname_rejected` at concrete inputs. -/
theorem missing_displayname_rejected_witness :
    (_get_session storeA (some cookieA) = .ok "sid123" sessionA) ∧
    (async_render_POST storeA (some cookieA) none regReject "tok").response =
      some (_return_html_error 400 "missing display name") ∧
    (async_render_POST storeA (some cookieA) none regReject "tok").regCalls = [] :=
  ⟨rfl,
   (missing_displayname_rejected storeA (some cookieA) regReject "tok" "sid123" sessionA rfl).1,
   (missing_displayname_rejected storeA (some cookieA) regReject "tok" "sid123" sessionA rfl).2.1⟩

/-- Counterexample to C6 as stated: a submission lacking `displayname` whose
session cookie names an unknown session is answered with the HTTP 403
"Unknown session" page — not HTTP 400 "missing display name" — because
session resolution runs first. -/
theorem missing_displayname_counterexample :
    (_get_session storeA (some cookieZ) = .err 403 "Unknown session") ∧
    (async_render_POST storeA (some cookieZ) none regReject "tok").response =
      some (_return_html_error 403 "Unknown session") ∧
    ((_return_html_error 403 "Unknown session").code = 403 ∧ (403 : Nat) ≠ 400) :=
  ⟨rfl, rfl, rfl, by decide⟩

/-- C9 (amended): on a submission whose session resolves, a `displayname`
field that is present is never rejected for its value: whatever its bytes
(including the empty sequence), the handler proceeds to registration, every
attempt uses the replacement-decoding of those bytes as the display name, and
the decoding is total — on the empty value the display name is the empty
string. -/
theorem empty_displayname_accepted (store : Store) (cookie : Option (List Nat))
    (reg : Nat → RegResult) (uuid : String) (sid : String)
    (s : DisplayNameMappingSession) (bs : List Nat)
    (h : _get_session store cookie = .ok sid s) :
    (async_render_POST store cookie (some bs) reg uuid).regCalls ≠ [] ∧
    (∀ c ∈ (async_render_POST store cookie (some bs) reg uuid).regCalls,
      c.displayname = decodeUtf8Replace bs) ∧
    decodeUtf8Replace [] = "" := by
  refine ⟨?_, ?_, by simp [decodeUtf8Replace]⟩
  · rw [async_render_POST_regCalls store cookie bs reg uuid sid s h]
    exact submitAttempts_calls_ne_nil s.email (emailLocalpart s.email)
      (decodeUtf8Replace bs) reg 0
  · intro c hc
    rw [async_render_POST_regCalls store cookie bs reg uuid sid s h] at hc
    exact (submitAttempts_calls_shape s.email (emailLocalpart s.email)
      (decodeUtf8Replace bs) reg MAX_FAILURES 0 (by omega) c hc).1

/-- Witness for `empty_displayname_accepted` at concrete inputs, with the
empty submitted value. -/
theorem empty_displayname_accepted_witness :
    (_get_session storeA (some cookieA) = .ok "sid123" sessionA) ∧
    (async_render_POST storeA (some cookieA) (some []) regReject "tok").regCalls ≠ [] :=
  ⟨rfl,
   (empty_displayname_accepted storeA (some cookieA) regReject "tok" "sid123" sessionA [] rfl).1⟩

/-- Counterexample to C9 as stated: a submission with `displayname` present
(and empty) but an unknown session never reaches registration — the quantifier
of the claim also ranges over submissions whose session does not resolve. -/
theorem empty_displayname_counterexample :
    (async_render_POST storeA (some cookieZ) (some []) regReject "tok").regCalls = [] ∧
    (async_render_POST storeA (some cookieZ) (some []) regReject "tok").response =
      some (_return_html_error 403 "Unknown session") :=
  ⟨rfl, rfl⟩

/-- On a successful attempt loop the module writes no page of its own: the
response is delegated to SSO completion. -/
theorem async_render_POST_success_response (store : Store) (cookie : Option (List Nat))
    (bs : List Nat) (reg : Nat → RegResult) (uuid : String) (sid : String)
    (s : DisplayNameMappingSession) (uid : String) (calls : List RegCall)
    (h : _get_session store cookie = .ok sid s)
    (hsub : submitAttempts s.email (emailLocalpart s.email) (decodeUtf8Replace bs) reg 0 =
      .success uid calls) :
    (async_render_POST store cookie (some bs) reg uuid).response = none := by
  rw [async_render_POST_success store cookie bs reg uuid sid s uid calls h hsub]

/-- C1 (amended): the handler retries on every failure the registration
collaborator reports as a registration error (`SynapseError`), whatever its
kind — a non-collision registration error triggers a further attempt rather
than an immediate abort — and aborts immediately only on a failure that is
not a registration error, responding then with the generic HTTP 500 page
rather than a page carrying that failure's own status code and message. -/
theorem submit_retries_any_registration_error (store : Store)
    (cookie : Option (List Nat)) (bs : List Nat) (reg : Nat → RegResult)
    (uuid : String) (sid : String) (s : DisplayNameMappingSession)
    (h : _get_session store cookie = .ok sid s) :
    (∀ k c m, reg 0 = .synErr k c m →
      2 ≤ (async_render_POST store cookie (some bs) reg uuid).regCalls.length) ∧
    (reg 0 = .otherExc →
      (async_render_POST store cookie (some bs) reg uuid).regCalls =
        [⟨emailLocalpart s.email, decodeUtf8Replace bs, [s.email]⟩] ∧
      (async_render_POST store cookie (some bs) reg uuid).response =
        some (_return_html_error 500 "Internal server error")) := by
  constructor
  · intro k c m hr
    rw [async_render_POST_regCalls store cookie bs reg uuid sid s h]
    rw [submitAttempts_synErr_retry s.email (emailLocalpart s.email)
      (decodeUtf8Replace bs) reg 0 k c m hr (by decide)]
    rw [consCall_calls]
    have hne := submitAttempts_calls_ne_nil s.email (emailLocalpart s.email)
      (decodeUtf8Replace bs) reg (0 + 1)
    have hpos := List.length_pos.mpr hne
    rw [List.length_cons]
    omega
  · intro hr
    have hsub := submitAttempts_otherExc_eq s.email (emailLocalpart s.email)
      (decodeUtf8Replace bs) reg 0 hr
    rw [async_render_POST_internalError store cookie bs reg uuid sid s _ h hsub]
    exact ⟨by simp [mkLocalpart], rfl⟩

/-- Witness for `submit_retries_any_registration_error` at concrete inputs:
a 429 "Too Many Requests" registration error is retried, and a
non-registration failure yields the 500 page after one attempt. -/
theorem submit_retries_any_registration_error_witness :
    (_get_session storeA (some cookieA) = .ok "sid123" sessionA) ∧
    (regRateLimited 0 = .synErr .otherKind 429 "Too Many Requests") ∧
    (regBoom 0 = .otherExc) ∧
    2 ≤ (async_render_POST storeA (some cookieA) (some dnAlice) regRateLimited
      "tok").regCalls.length ∧
    (async_render_POST storeA (some cookieA) (some dnAlice) regBoom "tok").response =
      some (_return_html_error 500 "Internal server error") :=
  ⟨rfl, rfl, rfl,
   (submit_retries_any_registration_error storeA (some cookieA) dnAlice regRateLimited
      "tok" "sid123" sessionA rfl).1 .otherKind 429 "Too Many Requests" rfl,
   ((submit_retries_any_registration_error storeA (some cookieA) dnAlice regBoom
      "tok" "sid123" sessionA rfl).2 rfl).2⟩

/-- Counterexample to C1 as stated: the collaborator's first failure is a
registration error that is not a username collision (429 "Too Many
Requests"), yet the handler does not abort — it makes a second registration
attempt, which succeeds, and writes no error page at all. -/
theorem submit_retry_kind_counterexample :
    (regRateLimited 0 = .synErr .otherKind 429 "Too Many Requests") ∧
    (async_render_POST storeA (some cookieA) (some dnAlice) regRateLimited
      "tok").regCalls.length = 2 ∧
    (async_render_POST storeA (some cookieA) (some dnAlice) regRateLimited
      "tok").response = none := by
  have h : _get_session storeA (some cookieA) = .ok "sid123" sessionA := rfl
  have h1 : regRateLimited 1 = .ok "@alice1:example.com" := rfl
  have hs1 := submitAttempts_ok_eq sessionA.email (emailLocalpart sessionA.email)
    (decodeUtf8Replace dnAlice) regRateLimited 1 "@alice1:example.com" h1
  have hs0 := submitAttempts_synErr_retry sessionA.email (emailLocalpart sessionA.email)
    (decodeUtf8Replace dnAlice) regRateLimited 0 .otherKind 429 "Too Many Requests"
    rfl (by decide)
  rw [hs1] at hs0
  refine ⟨rfl, ?_, ?_⟩
  · rw [async_render_POST_regCalls storeA (some cookieA) dnAlice regRateLimited "tok"
      "sid123" sessionA h, hs0]
    rfl
  · exact async_render_POST_success_response storeA (some cookieA) dnAlice regRateLimited
      "tok" "sid123" sessionA "@alice1:example.com"
      (⟨mkLocalpart (emailLocalpart sessionA.email) 0, decodeUtf8Replace dnAlice, [sessionA.email]⟩ ::
        [⟨mkLocalpart (emailLocalpart sessionA.email) 1, decodeUtf8Replace dnAlice, [sessionA.email]⟩])
      h (by rw [hs0]; rfl)

/-- Shifting a mapped range by one step. -/
theorem range_map_shift (g : Nat → RegCall) (d j : Nat) :
    (List.range (d + 1 + 1)).map (fun i => g (j + i)) =
      g j :: (List.range (d + 1)).map (fun i => g (j + 1 + i)) := by
  rw [List.range_succ_eq_map, List.map_cons, List.map_map]
  congr 1
  apply List.map_congr_left
  intro a _
  show g (j + (a + 1)) = g (j + 1 + a)
  exact congrArg g (by omega)

/-- When the collaborator answers every call up to the retry bound with a
`SynapseError`, the loop started at `j` (with `j + d = MAX_FAILURES`) makes
the attempts `j, j+1, …, MAX_FAILURES` in order and surfaces the last
error. -/
theorem submitAttempts_exhausts (email base dn : String) (reg : Nat → RegResult)
    (kinds : Nat → ErrKind) (codes : Nat → Nat) (msgs : Nat → String)
    (hfail : ∀ n, n ≤ MAX_FAILURES → reg n = .synErr (kinds n) (codes n) (msgs n)) :
    ∀ d j, j + d = MAX_FAILURES →
      submitAttempts email base dn reg j =
        .regFailed (codes MAX_FAILURES) (msgs MAX_FAILURES)
          ((List.range (d + 1)).map
            (fun i => (⟨mkLocalpart base (j + i), dn, [email]⟩ : RegCall))) := by
  intro d
  induction d with
  | zero =>
    intro j hj
    have hjM : j = MAX_FAILURES := by omega
    subst hjM
    rw [submitAttempts_synErr_stop email base dn reg MAX_FAILURES (kinds MAX_FAILURES)
      (codes MAX_FAILURES) (msgs MAX_FAILURES) (hfail MAX_FAILURES (le_refl MAX_FAILURES))
      (by omega)]
    simp [show List.range 1 = [0] from rfl]
  | succ d ih =>
    intro j hj
    have hjlt : j < MAX_FAILURES := by omega
    rw [submitAttempts_synErr_retry email base dn reg j (kinds j) (codes j) (msgs j)
      (hfail j (by omega)) hjlt]
    rw [ih (j + 1) (by omega)]
    simp only [AttemptResult.consCall]
    congr 1
    exact (range_map_shift (fun n => ⟨mkLocalpart base n, dn, [email]⟩) d j).symm

/-- C3: on a submission whose session resolves, whose email has local part
`u`, and whose `displayname` field is present, if the collaborator rejects
every attempt as unavailable then the handler attempts exactly the usernames
u, u1, …, u9 in that order — ten attempts, each reusing the same display name
and the same email — and then surfaces the tenth attempt's error without an
eleventh attempt. -/
theorem collision_retry_sequence (store : Store) (cookie : Option (List Nat))
    (bs : List Nat) (reg : Nat → RegResult) (uuid : String) (sid : String)
    (s : DisplayNameMappingSession) (u : String) (codes : Nat → Nat)
    (msgs : Nat → String)
    (h : _get_session store cookie = .ok sid s)
    (hu : emailLocalpart s.email = u)
    (hfail : ∀ n, n < 10 → reg n = .synErr .nameUnavailable (codes n) (msgs n)) :
    (async_render_POST store cookie (some bs) reg uuid).regCalls =
      [⟨u, decodeUtf8Replace bs, [s.email]⟩,
       ⟨u ++ "1", decodeUtf8Replace bs, [s.email]⟩,
       ⟨u ++ "2", decodeUtf8Replace bs, [s.email]⟩,
       ⟨u ++ "3", decodeUtf8Replace bs, [s.email]⟩,
       ⟨u ++ "4", decodeUtf8Replace bs, [s.email]⟩,
       ⟨u ++ "5", decodeUtf8Replace bs, [s.email]⟩,
       ⟨u ++ "6", decodeUtf8Replace bs, [s.email]⟩,
       ⟨u ++ "7", decodeUtf8Replace bs, [s.email]⟩,
       ⟨u ++ "8", decodeUtf8Replace bs, [s.email]⟩,
       ⟨u ++ "9", decodeUtf8Replace bs, [s.email]⟩] ∧
    (async_render_POST store cookie (some bs) reg uuid).regCalls.length = 10 ∧
    (async_render_POST store cookie (some bs) reg uuid).response =
      some (_return_html_error (codes 9) (msgs 9)) := by
  subst hu
  have hM : MAX_FAILURES = 9 := rfl
  have hfail2 : ∀ n, n ≤ MAX_FAILURES →
      reg n = .synErr ((fun _ => ErrKind.nameUnavailable) n) (codes n) (msgs n) :=
    fun n hn => hfail n (by rw [hM] at hn; omega)
  have hsub := submitAttempts_exhausts s.email (emailLocalpart s.email)
    (decodeUtf8Replace bs) reg (fun _ => ErrKind.nameUnavailable) codes msgs hfail2
    9 0 (by rw [hM])
  rw [hM] at hsub
  have hlist : (List.range (9 + 1)).map
      (fun i => (⟨mkLocalpart (emailLocalpart s.email) (0 + i), decodeUtf8Replace bs,
        [s.email]⟩ : RegCall)) =
      [⟨emailLocalpart s.email, decodeUtf8Replace bs, [s.email]⟩,
       ⟨emailLocalpart s.email ++ "1", decodeUtf8Replace bs, [s.email]⟩,
       ⟨emailLocalpart s.email ++ "2", decodeUtf8Replace bs, [s.email]⟩,
       ⟨emailLocalpart s.email ++ "3", decodeUtf8Replace bs, [s.email]⟩,
       ⟨emailLocalpart s.email ++ "4", decodeUtf8Replace bs, [s.email]⟩,
       ⟨emailLocalpart s.email ++ "5", decodeUtf8Replace bs, [s.email]⟩,
       ⟨emailLocalpart s.email ++ "6", decodeUtf8Replace bs, [s.email]⟩,
       ⟨emailLocalpart s.email ++ "7", decodeUtf8Replace bs, [s.email]⟩,
       ⟨emailLocalpart s.email ++ "8", decodeUtf8Replace bs, [s.email]⟩,
       ⟨emailLocalpart s.email ++ "9", decodeUtf8Replace bs, [s.email]⟩] := by
    rw [show List.range (9 + 1) = [0, 1, 2, 3, 4, 5, 6, 7, 8, 9] from rfl]
    simp [mkLocalpart,
      (show toString (1 : Nat) = "1" from rfl), (show toString (2 : Nat) = "2" from rfl),
      (show toString (3 : Nat) = "3" from rfl), (show toString (4 : Nat) = "4" from rfl),
      (show toString (5 : Nat) = "5" from rfl), (show toString (6 : Nat) = "6" from rfl),
      (show toString (7 : Nat) = "7" from rfl), (show toString (8 : Nat) = "8" from rfl),
      (show toString (9 : Nat) = "9" from rfl)]
  rw [hlist] at hsub
  refine ⟨?_, ?_, ?_⟩
  · rw [async_render_POST_regCalls store cookie bs reg uuid sid s h, hsub]
    rfl
  · rw [async_render_POST_regCalls store cookie bs reg uuid sid s h, hsub]
    rfl
  · rw [async_render_POST_regFailed store cookie bs reg uuid sid s (codes 9) (msgs 9)
      _ h hsub]

/-- Witness for `collision_retry_sequence` at concrete inputs: the session
email is `alice@example.com` and the collaborator rejects everything, so the
handler tries alice, alice1, …, alice9 and surfaces the final rejection. -/
theorem collision_retry_sequence_witness :
    (_get_session storeA (some cookieA) = .ok "sid123" sessionA) ∧
    (emailLocalpart sessionA.email = "alice") ∧
    (∀ n, n < 10 → regReject n = .synErr .nameUnavailable 400 "User ID already taken") ∧
    (async_render_POST storeA (some cookieA) (some dnAlice) regReject "tok").regCalls =
      [⟨"alice", decodeUtf8Replace dnAlice, [sessionA.email]⟩,
       ⟨"alice" ++ "1", decodeUtf8Replace dnAlice, [sessionA.email]⟩,
       ⟨"alice" ++ "2", decodeUtf8Replace dnAlice, [sessionA.email]⟩,
       ⟨"alice" ++ "3", decodeUtf8Replace dnAlice, [sessionA.email]⟩,
       ⟨"alice" ++ "4", decodeUtf8Replace dnAlice, [sessionA.email]⟩,
       ⟨"alice" ++ "5", decodeUtf8Replace dnAlice, [sessionA.email]⟩,
       ⟨"alice" ++ "6", decodeUtf8Replace dnAlice, [sessionA.email]⟩,
       ⟨"alice" ++ "7", decodeUtf8Replace dnAlice, [sessionA.email]⟩,
       ⟨"alice" ++ "8", decodeUtf8Replace dnAlice, [sessionA.email]⟩,
       ⟨"alice" ++ "9", decodeUtf8Replace dnAlice, [sessionA.email]⟩] ∧
    (async_render_POST storeA (some cookieA) (some dnAlice) regReject "tok").response =
      some (_return_html_error 400 "User ID already taken") :=
  ⟨rfl, rfl, by decide,
   (collision_retry_sequence storeA (some cookieA) dnAlice regReject "tok" "sid123"
      sessionA "alice" (fun _ => 400) (fun _ => "User ID already taken")
      rfl rfl (by decide)).1,
   (collision_retry_sequence storeA (some cookieA) dnAlice regReject "tok" "sid123"
      sessionA "alice" (fun _ => 400) (fun _ => "User ID already taken")
      rfl rfl (by decide)).2.2⟩

/-- Fixture: a collaborator that accepts the first attempt. -/
def regOk : Nat → RegResult := fun _ => .ok "@alice:example.com"

/-- C4: on a submission whose session resolves, whose `displayname` field is
present, and whose registration eventually succeeds within the retry bound,
exactly two external-identity records are written — the identity-provider
mapping of the remote user id under "saml" and the affiliation tag joined
with the fresh token under "affiliation" — the session is deleted from the
store, the session cookie is cleared (empty value, epoch expiry, root path),
and SSO completion is invoked exactly once with the new user id and the
session's stored client redirect URL; the module writes no page of its own. -/
theorem success_path_effects (store : Store) (cookie : Option (List Nat))
    (bs : List Nat) (reg : Nat → RegResult) (uuid : String) (sid : String)
    (s : DisplayNameMappingSession) (uid : String) (k : Nat)
    (kinds : Nat → ErrKind) (codes : Nat → Nat) (msgs : Nat → String)
    (h : _get_session store cookie = .ok sid s)
    (hk : k ≤ MAX_FAILURES)
    (hfail : ∀ n, n < k → reg n = .synErr (kinds n) (codes n) (msgs n))
    (hok : reg k = .ok uid) :
    (async_render_POST store cookie (some bs) reg uuid).externalIds =
      [⟨"saml", s.remote_user_id, uid⟩,
       ⟨"affiliation", s.affiliation ++ "|" ++ uuid, uid⟩] ∧
    (async_render_POST store cookie (some bs) reg uuid).deletedSessions = [sid] ∧
    (async_render_POST store cookie (some bs) reg uuid).cookiesSet =
      [⟨SESSION_COOKIE_NAME, "", "Thu, 01 Jan 1970 00:00:00 GMT", "/"⟩] ∧
    (async_render_POST store cookie (some bs) reg uuid).ssoCompletions =
      [(uid, s.client_redirect_url)] ∧
    (async_render_POST store cookie (some bs) reg uuid).response = none ∧
    (async_render_POST store cookie (some bs) reg uuid).store_after =
      (store : List (String × DisplayNameMappingSession)).filter
        (fun p => p.1 != sid) := by
  obtain ⟨cs, hcs⟩ := submitAttempts_reaches_success s.email (emailLocalpart s.email)
    (decodeUtf8Replace bs) reg uid k 0 (by omega)
    (fun n _ hnk => ⟨kinds n, codes n, msgs n, hfail n (by omega)⟩)
    (by rw [Nat.zero_add]; exact hok)
  rw [async_render_POST_success store cookie bs reg uuid sid s uid cs h hcs]
  exact ⟨rfl, rfl, rfl, rfl, rfl, rfl⟩

/-- Witness for `success_path_effects` at concrete inputs, with success on the
first attempt. -/
theorem success_path_effects_witness :
    (_get_session storeA (some cookieA) = .ok "sid123" sessionA) ∧
    (regOk 0 = .ok "@alice:example.com") ∧
    (async_render_POST storeA (some cookieA) (some dnAlice) regOk "tok").externalIds =
      [⟨"saml", "alice@idp.example", "@alice:example.com"⟩,
       ⟨"affiliation", "student" ++ "|" ++ "tok", "@alice:example.com"⟩] ∧
    (async_render_POST storeA (some cookieA) (some dnAlice) regOk "tok").deletedSessions =
      ["sid123"] ∧
    (async_render_POST storeA (some cookieA) (some dnAlice) regOk "tok").cookiesSet =
      [⟨SESSION_COOKIE_NAME, "", "Thu, 01 Jan 1970 00:00:00 GMT", "/"⟩] ∧
    (async_render_POST storeA (some cookieA) (some dnAlice) regOk "tok").ssoCompletions =
      [("@alice:example.com", "https://client.example/cb")] ∧
    (async_render_POST storeA (some cookieA) (some dnAlice) regOk "tok").response = none :=
  ⟨rfl, rfl,
   (success_path_effects storeA (some cookieA) dnAlice regOk "tok" "sid123" sessionA
      "@alice:example.com" 0 (fun _ => .nameUnavailable) (fun _ => 400) (fun _ => "")
      rfl (by decide) (by decide) rfl).1,
   (success_path_effects storeA (some cookieA) dnAlice regOk "tok" "sid123" sessionA
      "@alice:example.com" 0 (fun _ => .nameUnavailable) (fun _ => 400) (fun _ => "")
      rfl (by decide) (by decide) rfl).2.1,
   (success_path_effects storeA (some cookieA) dnAlice regOk "tok" "sid123" sessionA
      "@alice:example.com" 0 (fun _ => .nameUnavailable) (fun _ => 400) (fun _ => "")
      rfl (by decide) (by decide) rfl).2.2.1,
   (success_path_effects storeA (some cookieA) dnAlice regOk "tok" "sid123" sessionA
      "@alice:example.com" 0 (fun _ => .nameUnavailable) (fun _ => 400) (fun _ => "")
      rfl (by decide) (by decide) rfl).2.2.2.1,
   (success_path_effects storeA (some cookieA) dnAlice regOk "tok" "sid123" sessionA
      "@alice:example.com" 0 (fun _ => .nameUnavailable) (fun _ => 400) (fun _ => "")
      rfl (by decide) (by decide) rfl).2.2.2.2.1⟩

/-- C5: the session store is touched only on the success path.  Every run of
the submission handler either deletes nothing, leaves the store unchanged and
completes no SSO login — every failing submission, of whatever kind, leaves
the pending session in place for a retry — or resolved a session, deleted
exactly that session id, exactly once, completed exactly one SSO login and
wrote no page of its own. -/
theorem session_deleted_only_on_success (store : Store) (cookie : Option (List Nat))
    (dn : Option (List Nat)) (reg : Nat → RegResult) (uuid : String) :
    ((async_render_POST store cookie dn reg uuid).deletedSessions = [] ∧
     (async_render_POST store cookie dn reg uuid).store_after = store ∧
     (async_render_POST store cookie dn reg uuid).ssoCompletions = []) ∨
    (∃ sid s uid,
      _get_session store cookie = .ok sid s ∧
      (async_render_POST store cookie dn reg uuid).deletedSessions = [sid] ∧
      (async_render_POST store cookie dn reg uuid).ssoCompletions =
        [(uid, s.client_redirect_url)] ∧
      (async_render_POST store cookie dn reg uuid).store_after =
        (store : List (String × DisplayNameMappingSession)).filter
          (fun p => p.1 != sid) ∧
      (async_render_POST store cookie dn reg uuid).response = none) := by
  rcases hg : _get_session store cookie with ⟨c, m⟩ | ⟨sid, s⟩
  · left
    rw [async_render_POST_sessionErr store cookie dn reg uuid c m hg]
    exact ⟨rfl, rfl, rfl⟩
  · rcases dn with _ | bs
    · left
      rw [async_render_POST_noDn store cookie reg uuid sid s hg]
      exact ⟨rfl, rfl, rfl⟩
    · rcases hsub : submitAttempts s.email (emailLocalpart s.email)
        (decodeUtf8Replace bs) reg 0 with ⟨uid, calls⟩ | ⟨c, m, calls⟩ | ⟨calls⟩
      · right
        refine ⟨sid, s, uid, rfl, ?_, ?_, ?_, ?_⟩ <;>
          rw [async_render_POST_success store cookie bs reg uuid sid s uid calls hg hsub]
      · left
        rw [async_render_POST_regFailed store cookie bs reg uuid sid s c m calls hg hsub]
        exact ⟨rfl, rfl, rfl⟩
      · left
        rw [async_render_POST_internalError store cookie bs reg uuid sid s calls hg hsub]
        exact ⟨rfl, rfl, rfl⟩

/-- Fixture: a session whose stored display name is the single non-ASCII
character U+00E9 (LATIN SMALL LETTER E WITH ACUTE), one character but two
UTF-8 bytes. -/
def sessionE : DisplayNameMappingSession :=
  { email := "alice@mit.edu"
    displayname := String.singleton (Char.ofNat 233)
    remote_user_id := "alice@idp.example"
    affiliation := "student"
    client_redirect_url := "https://client.example/cb" }

/-- Fixture: a store holding `sessionE` under the identifier "sid7". -/
def storeE : Store := [("sid7", sessionE)]

/-- Fixture: the ASCII bytes of "sid7". -/
def cookieE : List Nat := [115, 105, 100, 55]

/-- Fixture: a minimal template, a single space between the placeholders. -/
def tmplE : FormTemplate := { pre := "", mid := " ", post := "" }

/-- C7 at its failing input: for the session whose display name is "é", the
rendered body has 7 characters but its UTF-8 encoding has 8 bytes, and the
handler sets the Content-Length header to the character count 7, not the byte
length 8, because the source computes `len(body)` on the `str` before
encoding.  Status, content type and body encoding are as the claim says; the
Content-Length clause is what fails. -/
theorem form_content_length_bug :
    (async_render_GET storeE tmplE (some cookieE)).code = 200 ∧
    (async_render_GET storeE tmplE (some cookieE)).contentType =
      "text/html; charset=utf-8" ∧
    (async_render_GET storeE tmplE (some cookieE)).contentLength = 7 ∧
    (async_render_GET storeE tmplE (some cookieE)).body.utf8ByteSize = 8 ∧
    (7 : Nat) ≠ 8 :=
  ⟨rfl, rfl, rfl, rfl, by decide⟩

/-- C8: the HTML error page carries the given status code, the HTML content
type, a Content-Length equal to the byte length of its UTF-8-encoded body,
and a body that is the fixed document with title `Error {code}` and a single
paragraph holding the HTML-escaped message followed by the fixed
contact-support suffix; no character of the escaped message is an angle
bracket, so a message such as "<script>…" can only render as escaped text,
never as markup. -/
theorem html_error_page_shape (code : Nat) (msg : String) :
    (_return_html_error code msg).code = code ∧
    (_return_html_error code msg).contentType = "text/html; charset=utf-8" ∧
    (_return_html_error code msg).contentLength =
      (_return_html_error code msg).body.utf8ByteSize ∧
    (_return_html_error code msg).body =
      "<!DOCTYPE html>\n<html lang=en>\n  <head>\n    <meta charset=\"utf-8\">\n    <title>Error " ++
        toString code ++
        "</title>\n  </head>\n  <body>\n     <p>" ++
        (htmlEscape msg ++ " Please email matrix@mit.edu for help.") ++
        "</p>\n  </body>\n</html>\n" ∧
    (∀ x ∈ (htmlEscape msg).data, x ≠ '<' ∧ x ≠ '>') := by
  refine ⟨rfl, rfl, rfl, ?_, fun x hx => htmlEscape_no_angle msg x hx⟩
  show HTML_ERROR_TEMPLATE_format (toString code)
      (htmlEscape (msg ++ " Please email matrix@mit.edu for help.")) = _
  rw [htmlEscape_append, htmlEscape_suffix]
  rfl

/-- Witness for `html_error_page_shape` at a concrete hostile message. -/
theorem html_error_page_shape_witness :
    (_return_html_error 403 "<script>alert(1)</script>").code = 403 ∧
    (∀ x ∈ (htmlEscape "<script>alert(1)</script>").data, x ≠ '<' ∧ x ≠ '>') :=
  ⟨(html_error_page_shape 403 "<script>alert(1)</script>").1,
   (html_error_page_shape 403 "<script>alert(1)</script>").2.2.2.2⟩

/-- C10: a `HEAD` request to a resource that defines no `async_render_HEAD`
falls back to the resource's `async_render_GET` handler, and a `HEAD` request
to the form resource — which defines only a `GET` handler — is processed
exactly as a `GET` request: same session resolution, same status, headers and
body. -/
theorem head_falls_back_to_get (has : String → Bool)
    (h1 : has "async_render_HEAD" = false)
    (h2 : has "async_render_GET" = true) :
    AsyncResource_render has "HEAD" = some "async_render_GET" ∧
    (∀ store t cookie, formResourceRender store t cookie "HEAD" =
      formResourceRender store t cookie "GET") := by
  constructor
  · show (if has ("async_render_" ++ "HEAD") then some ("async_render_" ++ "HEAD")
      else if (("HEAD" == "HEAD") && has "async_render_GET") then some "async_render_GET"
      else none) = some "async_render_GET"
    rw [show ("async_render_" ++ "HEAD") = "async_render_HEAD" from rfl, h1, h2]
    rfl
  · intro store t cookie
    rfl

/-- Witness for `head_falls_back_to_get` at the form resource. -/
theorem head_falls_back_to_get_witness :
    (formResourceHas "async_render_HEAD" = false) ∧
    (formResourceHas "async_render_GET" = true) ∧
    (AsyncResource_render formResourceHas "HEAD" = some "async_render_GET") ∧
    (formResourceRender storeA tmplA (some cookieA) "HEAD" =
      formResourceRender storeA tmplA (some cookieA) "GET") :=
  ⟨rfl, rfl,
   (head_falls_back_to_get formResourceHas rfl rfl).1,
   (head_falls_back_to_get formResourceHas rfl rfl).2 storeA tmplA (some cookieA)⟩

end Touchstone
